import Mathlib

/-!
Verification of the MQ-135 gas pipeline of the ESP32_WeatherStation_v2
firmware.  The repository ships two firmware revisions: the single-loop
sketch `ESP32_WeatherStation_v2.ino` and a dual-core (FreeRTOS) revision.
Real arithmetic of the C code is embedded over `ℚ`; the transcendental
`pow(x, -2.769034857)` is kept as an uninterpreted parameter
`powf : ℚ → ℚ`, applied to exactly the argument the C code passes to it.
Division follows Lean's total convention `x / 0 = 0` (the C float code
never traps on division either).
-/

/-- `#define RL_VALUE 10` — load resistance in kilo ohms (both revisions). -/
def RL_VALUE : ℚ := 10

/-- `#define RO_CLEAN_AIR_FACTOR 3.6` (both revisions). -/
def RO_CLEAN_AIR_FACTOR : ℚ := 3.6

/-- `#define CALIBRATION_SAMPLE_TIMES 20` (both revisions). -/
def CALIBRATION_SAMPLE_TIMES : ℕ := 20

/-- `#define GAS_ALERT_THRESHOLD 300` (PPM). -/
def GAS_ALERT_THRESHOLD : ℚ := 300

/-- `#define TEMP_HIGH_ALERT 35.0` (°C). -/
def TEMP_HIGH_ALERT : ℚ := 35.0

/-- `#define TEMP_LOW_ALERT 10.0` (°C). -/
def TEMP_LOW_ALERT : ℚ := 10.0

/-- `#define HUMIDITY_HIGH_ALERT 80.0` (%). -/
def HUMIDITY_HIGH_ALERT : ℚ := 80.0

/-- `#define HUMIDITY_LOW_ALERT 30.0` (%). -/
def HUMIDITY_LOW_ALERT : ℚ := 30.0

/-- `#define PRESSURE_LOW_ALERT 980.0` (hPa). -/
def PRESSURE_LOW_ALERT : ℚ := 980.0

/-- `voltage = adcValue * (3.3 / 4095.0)` — the ADC-count-to-voltage
conversion appearing verbatim in `calculateGasPPM` and `calibrateMQ135`
of both firmware revisions. -/
def adcVoltage (adcValue : ℤ) : ℚ := (adcValue : ℚ) * (3.3 / 4095.0)

namespace DualCore

/-- `float calculateGasPPM(int adcValue, float temp, float hum)` of the
dual-core firmware revision (environmental compensation variant):
guard `if (voltage <= 0) return 0.0;`, then
`rs = ((3.3 * RL_VALUE) / voltage) - RL_VALUE`,
`correctionFactor = 1.0 + (temp - 20.0)*(-0.005) + (hum - 33.0)*(-0.002)`,
`correctedRs = rs / correctionFactor`, and
`return 116.6020682 * pow(correctedRs / Ro, -2.769034857)`.
`Ro` is the global baseline loaded from preferences; `powf` stands for
`x ↦ pow(x, -2.769034857)`. -/
def calculateGasPPM (powf : ℚ → ℚ) (Ro : ℚ) (adcValue : ℤ) (temp hum : ℚ) : ℚ :=
  let voltage := adcVoltage adcValue
  if voltage ≤ 0 then 0
  else
    let rs := ((3.3 * RL_VALUE) / voltage) - RL_VALUE
    let correctionFactor := 1.0 + (temp - 20.0) * (-0.005) + (hum - 33.0) * (-0.002)
    let correctedRs := rs / correctionFactor
    let ratio := correctedRs / Ro
    116.6020682 * powf ratio

end DualCore

namespace SingleLoop

/-- `float calculateGasPPM(int adcValue)` of the single-loop sketch
(no-compensation variant): guard `if (voltage == 0) return 0;`, then
`rs = ((3.3 * RL_VALUE) / voltage) - RL_VALUE`, clamp `if (rs < 0) rs = 0;`,
`ratio = rs / Ro`, `ppm = 116.6020682 * pow(ratio, -2.769034857)`. -/
def calculateGasPPM (powf : ℚ → ℚ) (Ro : ℚ) (adcValue : ℤ) : ℚ :=
  let voltage := adcVoltage adcValue
  if voltage = 0 then 0
  else
    let rs0 := ((3.3 * RL_VALUE) / voltage) - RL_VALUE
    let rs := if rs0 < 0 then 0 else rs0
    let ratio := rs / Ro
    116.6020682 * powf ratio

end SingleLoop

/-- C1: for every raw ADC count in 1..4095, any temperature, humidity and
baseline Ro > 0 with nonzero compensation factor, the compensated
`calculateGasPPM` equals the exact composition of spec steps 1–5:
`116.6020682 * powf ((Rs / correction) / Ro)` with
`voltage = raw * (3.3/4095)`, `Rs = 3.3*10/voltage - 10` and
`correction = 1 + (temp-20)*(-0.005) + (hum-33)*(-0.002)`. -/
theorem calculateGasPPM_spec_composition (powf : ℚ → ℚ) (Ro : ℚ) (raw : ℤ)
    (temp hum : ℚ) (h1 : 1 ≤ raw) (h2 : raw ≤ 4095) (hRo : 0 < Ro)
    (hc : 1.0 + (temp - 20.0) * (-0.005) + (hum - 33.0) * (-0.002) ≠ 0) :
    DualCore.calculateGasPPM powf Ro raw temp hum =
      116.6020682 *
        powf ((((3.3 * 10) / ((raw : ℚ) * (3.3 / 4095.0)) - 10) /
                (1.0 + (temp - 20.0) * (-0.005) + (hum - 33.0) * (-0.002))) / Ro) := by
  have hpos : (0 : ℚ) < adcVoltage raw := by
    have hr : (1 : ℚ) ≤ (raw : ℚ) := by exact_mod_cast h1
    have h0 : (0 : ℚ) < (raw : ℚ) := lt_of_lt_of_le one_pos hr
    exact mul_pos h0 (by norm_num)
  simp only [DualCore.calculateGasPPM, RL_VALUE]
  rw [if_neg (not_le.mpr hpos)]
  simp only [adcVoltage]

/-- Witness for C1 at `powf = id`, `Ro = 1`, `raw = 2048`, `temp = 25`,
`hum = 50`. -/
theorem calculateGasPPM_spec_composition_witness :
    DualCore.calculateGasPPM id 1 2048 25 50 =
      116.6020682 *
        id ((((3.3 * 10) / ((2048 : ℚ) * (3.3 / 4095.0)) - 10) /
              (1.0 + ((25 : ℚ) - 20.0) * (-0.005) + ((50 : ℚ) - 33.0) * (-0.002))) / 1) :=
  calculateGasPPM_spec_composition id 1 2048 25 50 (by decide) (by decide)
    (by norm_num) (by norm_num)

/-- C6: for every input whose derived voltage is ≤ 0 (raw ADC count 0 or
negative), the compensated `calculateGasPPM` returns 0 exactly, regardless
of temperature, humidity and the stored Ro: the guard
`if (voltage <= 0) return 0.0;` fires before any other computation. -/
theorem calculateGasPPM_nonpositive_voltage (powf : ℚ → ℚ) (Ro : ℚ) (adc : ℤ)
    (temp hum : ℚ) (hv : adcVoltage adc ≤ 0) :
    DualCore.calculateGasPPM powf Ro adc temp hum = 0 := by
  simp only [DualCore.calculateGasPPM]
  rw [if_pos hv]

/-- Witness for C6 at `adc = -1` (negative count, voltage < 0). -/
theorem calculateGasPPM_nonpositive_voltage_witness :
    adcVoltage (-1) ≤ 0 ∧ DualCore.calculateGasPPM id 10 (-1) 25 50 = 0 :=
  ⟨by norm_num [adcVoltage],
   calculateGasPPM_nonpositive_voltage id 10 (-1) 25 50 (by norm_num [adcVoltage])⟩

/-- C8: at the baseline environment 20 °C / 33 %RH the compensation factor
is exactly 1, and for every raw ADC count in 0..4095 and every Ro > 0 the
compensated variant and the no-compensation variant return the same value:
no in-range count makes `rs` negative, so the single-loop clamp
`if (rs < 0) rs = 0;` never changes the result. -/
theorem calculateGasPPM_variants_agree_at_baseline (powf : ℚ → ℚ) (Ro : ℚ)
    (adc : ℤ) (h0 : 0 ≤ adc) (h1 : adc ≤ 4095) (hRo : 0 < Ro) :
    DualCore.calculateGasPPM powf Ro adc 20.0 33.0 =
      SingleLoop.calculateGasPPM powf Ro adc := by
  by_cases hz : (adc : ℚ) = 0
  · simp only [DualCore.calculateGasPPM, SingleLoop.calculateGasPPM, adcVoltage, hz]
    norm_num
  · have hposZ : 0 < (adc : ℚ) :=
      lt_of_le_of_ne (by exact_mod_cast h0) (Ne.symm hz)
    have hle : (adc : ℚ) ≤ 4095 := by exact_mod_cast h1
    have hv : 0 < adcVoltage adc := by
      simp only [adcVoltage]
      exact mul_pos hposZ (by norm_num)
    have hv33 : adcVoltage adc ≤ 3.3 := by
      simp only [adcVoltage]
      nlinarith [hle]
    have hrs : 0 ≤ ((3.3 * RL_VALUE) / adcVoltage adc) - RL_VALUE := by
      rw [RL_VALUE, sub_nonneg, le_div_iff hv]
      nlinarith [hv33]
    simp only [DualCore.calculateGasPPM, SingleLoop.calculateGasPPM]
    rw [if_neg (not_le.mpr hv), if_neg (ne_of_gt hv), if_neg (not_lt.mpr hrs)]
    norm_num

/-- Witness for C8 at `powf = id`, `Ro = 1`, `adc = 2048`. -/
theorem calculateGasPPM_variants_agree_at_baseline_witness :
    (0 : ℤ) ≤ 2048 ∧ (2048 : ℤ) ≤ 4095 ∧ (0 : ℚ) < 1 ∧
      DualCore.calculateGasPPM id 1 2048 20.0 33.0 =
        SingleLoop.calculateGasPPM id 1 2048 :=
  ⟨by decide, by decide, by norm_num,
   calculateGasPPM_variants_agree_at_baseline id 1 2048 (by decide) (by decide)
     (by norm_num)⟩

/-- C10: at full scale `adc = 4095` the voltage is exactly 3.3, `rs` is
exactly 0, and (at the baseline environment) both firmware variants pass a
zero resistance ratio straight into the power law: the returned value is
`116.6020682 * powf 0`, i.e. `116.6020682 * pow(0, -2.769034857)` in C, a
division by zero inside `pow` that neither variant guards against. -/
theorem calculateGasPPM_full_scale_zero_ratio (powf : ℚ → ℚ) (Ro : ℚ) :
    DualCore.calculateGasPPM powf Ro 4095 20.0 33.0 = 116.6020682 * powf 0 ∧
      SingleLoop.calculateGasPPM powf Ro 4095 = 116.6020682 * powf 0 := by
  constructor
  · simp only [DualCore.calculateGasPPM, adcVoltage, RL_VALUE]
    norm_num
  · simp only [SingleLoop.calculateGasPPM, adcVoltage, RL_VALUE]
    norm_num

/-- The ESP32 `Preferences` NVS store as used by the firmware: a partial
map from string keys to floats and one to booleans.  `getFloat`/`getBool`
take a default, `isKey` tests presence, `putFloat`/`putBool` overwrite. -/
structure Preferences where
  floats : String → Option ℚ
  bools : String → Option Bool

/-- `preferences.getFloat(key, default)`. -/
def Preferences.getFloat (p : Preferences) (k : String) (d : ℚ) : ℚ :=
  (p.floats k).getD d

/-- `preferences.putFloat(key, value)`. -/
def Preferences.putFloat (p : Preferences) (k : String) (v : ℚ) : Preferences :=
  { p with floats := fun k2 => if k2 = k then some v else p.floats k2 }

/-- `preferences.getBool(key, default)`. -/
def Preferences.getBool (p : Preferences) (k : String) (d : Bool) : Bool :=
  (p.bools k).getD d

/-- `preferences.putBool(key, value)`. -/
def Preferences.putBool (p : Preferences) (k : String) (v : Bool) : Preferences :=
  { p with bools := fun k2 => if k2 = k then some v else p.bools k2 }

/-- `preferences.isKey(key)` (the firmware only queries it for the float
key `"mq135_ro"`). -/
def Preferences.isKey (p : Preferences) (k : String) : Bool :=
  (p.floats k).isSome

/-- A store with no keys (factory-fresh NVS namespace). -/
def emptyPreferences : Preferences :=
  { floats := fun _ => none, bools := fun _ => none }

/-- `void calibrateMQ135()` (identical in both firmware revisions), with
the ADC samples of the loop passed in as a list: for each sample
`voltage = adcValue * (3.3 / 4095.0)`,
`rsTemp = ((3.3 * RL_VALUE) / voltage) - RL_VALUE`, accumulated into `rs`;
after the loop `rs = rs / CALIBRATION_SAMPLE_TIMES`,
`Ro = rs / RO_CLEAN_AIR_FACTOR`, and
`preferences.putFloat("mq135_ro", Ro)`.  Returns the computed `Ro`
(assigned to the global) and the updated store. -/
def calibrateMQ135 (samples : List ℤ) (p : Preferences) : ℚ × Preferences :=
  let rs := (samples.map (fun adcValue =>
    let voltage := adcVoltage adcValue
    ((3.3 * RL_VALUE) / voltage) - RL_VALUE)).sum
  let rsAvg := rs / (CALIBRATION_SAMPLE_TIMES : ℚ)
  let Ro := rsAvg / RO_CLEAN_AIR_FACTOR
  (Ro, p.putFloat "mq135_ro" Ro)

/-- C2 counterexample: the claim's concrete regression value for a constant
ADC count of 2048, read with standard operator precedence, is
`((3.3*2048/4095)*10/(3.3*2048/4095) - 10)/3.6 = (10 - 10)/3.6 = 0`,
but `calibrateMQ135` on twenty samples of 2048 yields `51175/18432 ≈ 2.776`,
not 0. -/
theorem calibrateMQ135_claimed_fixture_false :
    (calibrateMQ135 (List.replicate 20 2048) emptyPreferences).1 ≠
      (((3.3 : ℚ) * 2048 / 4095) * 10 / (3.3 * 2048 / 4095) - 10) / 3.6 := by
  have hval : (calibrateMQ135 (List.replicate 20 2048) emptyPreferences).1 =
      51175 / 18432 := by
    simp only [calibrateMQ135, adcVoltage, RL_VALUE, RO_CLEAN_AIR_FACTOR,
      CALIBRATION_SAMPLE_TIMES, List.map_replicate, List.sum_replicate,
      smul_eq_mul, Nat.cast_ofNat]
    norm_num
  rw [hval]
  norm_num

/-- C2 (amended): for every 20-sample run, `calibrateMQ135` averages the
per-sample resistances `3.3*10/(adc*(3.3/4095)) - 10`, divides by the
clean-air factor 3.6, persists exactly that Ro under `"mq135_ro"`, and on
twenty samples of 2048 returns `(3.3*10/(2048*(3.3/4095)) - 10)/3.6`
exactly. -/
theorem calibrateMQ135_spec (samples : List ℤ) (p : Preferences)
    (hlen : samples.length = 20) :
    ((calibrateMQ135 samples p).1 =
        ((samples.map (fun (a : ℤ) => (3.3 * 10) / ((a : ℚ) * (3.3 / 4095.0)) - 10)).sum
          / 20) / 3.6)
    ∧ (((calibrateMQ135 samples p).2).floats "mq135_ro" =
        some ((calibrateMQ135 samples p).1))
    ∧ ((calibrateMQ135 (List.replicate 20 2048) p).1 =
        ((3.3 * 10) / ((2048 : ℚ) * (3.3 / 4095.0)) - 10) / 3.6) := by
  refine ⟨?_, ?_, ?_⟩
  · simp only [calibrateMQ135, adcVoltage, RL_VALUE, RO_CLEAN_AIR_FACTOR,
      CALIBRATION_SAMPLE_TIMES, Nat.cast_ofNat]
  · simp [calibrateMQ135, Preferences.putFloat]
  · simp only [calibrateMQ135, adcVoltage, RL_VALUE, RO_CLEAN_AIR_FACTOR,
      CALIBRATION_SAMPLE_TIMES, List.map_replicate, List.sum_replicate,
      smul_eq_mul, Nat.cast_ofNat]
    norm_num

/-- Witness for C2 (amended) at twenty samples of 2048 and an empty store. -/
theorem calibrateMQ135_spec_witness :
    ((List.replicate 20 (2048 : ℤ)).length = 20) ∧
      (((calibrateMQ135 (List.replicate 20 (2048 : ℤ)) emptyPreferences).1 =
          (((List.replicate 20 (2048 : ℤ)).map
              (fun (a : ℤ) => (3.3 * 10) / ((a : ℚ) * (3.3 / 4095.0)) - 10)).sum
            / 20) / 3.6)
        ∧ (((calibrateMQ135 (List.replicate 20 (2048 : ℤ)) emptyPreferences).2).floats
              "mq135_ro" =
            some ((calibrateMQ135 (List.replicate 20 (2048 : ℤ)) emptyPreferences).1))
        ∧ ((calibrateMQ135 (List.replicate 20 2048) emptyPreferences).1 =
            ((3.3 * 10) / ((2048 : ℚ) * (3.3 / 4095.0)) - 10) / 3.6)) :=
  ⟨by decide,
   calibrateMQ135_spec (List.replicate 20 2048) emptyPreferences (by decide)⟩

/-- C9: `calibrateMQ135` has no internal failure path: on every sample
list — including the all-zero list of a disconnected sensor, for which no
guard excludes `voltage = 0` in the loop — it completes with some numeric
Ro and persists exactly that Ro under `"mq135_ro"`, with no validation
bound rejecting it first. -/
theorem calibrateMQ135_no_failure_path (samples : List ℤ) (p : Preferences) :
    (∃ ro : ℚ, calibrateMQ135 samples p = (ro, p.putFloat "mq135_ro" ro)) ∧
      (((calibrateMQ135 (List.replicate 20 0) p).2).floats "mq135_ro" =
        some ((calibrateMQ135 (List.replicate 20 0) p).1)) := by
  refine ⟨⟨(calibrateMQ135 samples p).1, rfl⟩, ?_⟩
  simp [calibrateMQ135, Preferences.putFloat]

/-- Boot-time calibration policy of `setup()` in the single-loop sketch:
`Ro = preferences.getFloat("mq135_ro", 10.0)` at startup, then
`if (preferences.getBool("force_calib", false))` run `calibrateMQ135()` and
`preferences.putBool("force_calib", false)`; `else if
(!preferences.isKey("mq135_ro"))` (first boot) run `calibrateMQ135()`;
`else` keep the stored Ro.  Returns the Ro in effect after setup, the
updated store, and whether calibration ran. -/
def setupCalibration (p : Preferences) (samples : List ℤ) : ℚ × Preferences × Bool :=
  let ro0 := p.getFloat "mq135_ro" 10.0
  if p.getBool "force_calib" false then
    let r := calibrateMQ135 samples p
    (r.1, (r.2).putBool "force_calib" false, true)
  else if !(p.isKey "mq135_ro") then
    let r := calibrateMQ135 samples p
    (r.1, r.2, true)
  else
    (ro0, p, false)

/-- C7: at boot, calibration runs iff the persisted `"force_calib"` flag is
true or no `"mq135_ro"` key exists; when the flag was set it is cleared to
false after the run; on any other boot calibration is skipped, the store is
untouched, and the Ro in effect is the one loaded from storage
(`getFloat("mq135_ro", 10.0)`). -/
theorem setupCalibration_policy (p : Preferences) (samples : List ℤ) :
    ((setupCalibration p samples).2.2 =
        (p.getBool "force_calib" false || !(p.isKey "mq135_ro")))
    ∧ ((setupCalibration p samples).1 =
        if p.getBool "force_calib" false || !(p.isKey "mq135_ro")
        then (calibrateMQ135 samples p).1
        else p.getFloat "mq135_ro" 10.0)
    ∧ ((setupCalibration p samples).2.1 =
        if p.getBool "force_calib" false
        then ((calibrateMQ135 samples p).2).putBool "force_calib" false
        else if !(p.isKey "mq135_ro") then (calibrateMQ135 samples p).2
        else p)
    ∧ ((setupCalibration p samples).2.1.bools "force_calib" =
        if p.getBool "force_calib" false then some false
        else p.bools "force_calib") := by
  by_cases hf : p.getBool "force_calib" false
  · simp [setupCalibration, hf, Preferences.putBool]
  · by_cases hk : p.isKey "mq135_ro"
    · simp [setupCalibration, hf, hk]
    · simp [setupCalibration, hf, hk, calibrateMQ135, Preferences.putFloat]

/-- The per-metric edge-detection flags of `checkAlerts` (globals
`gasAlertActive`, `tempAlertActive` and function-statics
`humidityAlertSent`, `pressureAlertSent`; all start false). -/
structure AlertFlags where
  gasAlertActive : Bool
  tempAlertActive : Bool
  humidityAlertSent : Bool
  pressureAlertSent : Bool
deriving DecidableEq

/-- Which `sendAlert` calls one `checkAlerts()` evaluation performs. -/
structure AlertEvents where
  gasEvent : Bool
  tempEvent : Bool
  humEvent : Bool
  presEvent : Bool
deriving DecidableEq

/-- All flags false — the state at startup. -/
def inactiveFlags : AlertFlags := ⟨false, false, false, false⟩

/-- `void checkAlerts()` (identical in both firmware revisions): four
independent blocks of the shape
`if (value out of band) { if (!flag) { flag = true; sendAlert(...); } }
 else { flag = false; }`
with bands `gasPPM > GAS_ALERT_THRESHOLD`,
`temperature > TEMP_HIGH_ALERT || temperature < TEMP_LOW_ALERT`,
`humidity > HUMIDITY_HIGH_ALERT || humidity < HUMIDITY_LOW_ALERT`,
`pressure < PRESSURE_LOW_ALERT`.  Returns the new flags and which alerts
were emitted. -/
def checkAlerts (s : AlertFlags) (gasPPM temperature humidity pressure : ℚ) :
    AlertFlags × AlertEvents :=
  let gas : Bool × Bool :=
    if gasPPM > GAS_ALERT_THRESHOLD then
      if !s.gasAlertActive then (true, true) else (s.gasAlertActive, false)
    else (false, false)
  let temp : Bool × Bool :=
    if temperature > TEMP_HIGH_ALERT ∨ temperature < TEMP_LOW_ALERT then
      if !s.tempAlertActive then (true, true) else (s.tempAlertActive, false)
    else (false, false)
  let hum : Bool × Bool :=
    if humidity > HUMIDITY_HIGH_ALERT ∨ humidity < HUMIDITY_LOW_ALERT then
      if !s.humidityAlertSent then (true, true) else (s.humidityAlertSent, false)
    else (false, false)
  let pres : Bool × Bool :=
    if pressure < PRESSURE_LOW_ALERT then
      if !s.pressureAlertSent then (true, true) else (s.pressureAlertSent, false)
    else (false, false)
  (⟨gas.1, temp.1, hum.1, pres.1⟩, ⟨gas.2, temp.2, hum.2, pres.2⟩)

/-- Gas block of `checkAlerts`: post-flag and emission flattened. -/
theorem checkAlerts_gas_eq (s : AlertFlags) (g t h p : ℚ) :
    (checkAlerts s g t h p).1.gasAlertActive = decide (g > 300) ∧
      (checkAlerts s g t h p).2.gasEvent = (decide (g > 300) && !s.gasAlertActive) := by
  by_cases hg : g > (300 : ℚ)
  · by_cases hA : s.gasAlertActive <;>
      simp [checkAlerts, GAS_ALERT_THRESHOLD, hg, hA]
  · simp [checkAlerts, GAS_ALERT_THRESHOLD, hg]

/-- Temperature block of `checkAlerts`, flattened. -/
theorem checkAlerts_temp_eq (s : AlertFlags) (g t h p : ℚ) :
    (checkAlerts s g t h p).1.tempAlertActive = decide (t > 35.0 ∨ t < 10.0) ∧
      (checkAlerts s g t h p).2.tempEvent =
        (decide (t > 35.0 ∨ t < 10.0) && !s.tempAlertActive) := by
  by_cases ht : t > (35.0 : ℚ) ∨ t < (10.0 : ℚ)
  · by_cases hA : s.tempAlertActive <;>
      simp [checkAlerts, TEMP_HIGH_ALERT, TEMP_LOW_ALERT, ht, hA]
  · simp [checkAlerts, TEMP_HIGH_ALERT, TEMP_LOW_ALERT, ht]

/-- Humidity block of `checkAlerts`, flattened. -/
theorem checkAlerts_hum_eq (s : AlertFlags) (g t h p : ℚ) :
    (checkAlerts s g t h p).1.humidityAlertSent = decide (h > 80.0 ∨ h < 30.0) ∧
      (checkAlerts s g t h p).2.humEvent =
        (decide (h > 80.0 ∨ h < 30.0) && !s.humidityAlertSent) := by
  by_cases hh : h > (80.0 : ℚ) ∨ h < (30.0 : ℚ)
  · by_cases hA : s.humidityAlertSent <;>
      simp [checkAlerts, HUMIDITY_HIGH_ALERT, HUMIDITY_LOW_ALERT, hh, hA]
  · simp [checkAlerts, HUMIDITY_HIGH_ALERT, HUMIDITY_LOW_ALERT, hh]

/-- Pressure block of `checkAlerts`, flattened. -/
theorem checkAlerts_pres_eq (s : AlertFlags) (g t h p : ℚ) :
    (checkAlerts s g t h p).1.pressureAlertSent = decide (p < 980.0) ∧
      (checkAlerts s g t h p).2.presEvent =
        (decide (p < 980.0) && !s.pressureAlertSent) := by
  by_cases hp : p < (980.0 : ℚ)
  · by_cases hA : s.pressureAlertSent <;>
      simp [checkAlerts, PRESSURE_LOW_ALERT, hp, hA]
  · simp [checkAlerts, PRESSURE_LOW_ALERT, hp]

/-- C4: every threshold comparison in `checkAlerts` is strict — an alert
fires iff `gas > 300`, `temp > 35.0 ∨ temp < 10.0`, `hum > 80.0 ∨
hum < 30.0`, `pres < 980.0` (and the metric was not already flagged; no
high-pressure alert exists) — so values exactly at a boundary (gas = 300,
temp = 35.0 or 10.0, hum = 80.0 or 30.0, pres = 980.0) trigger nothing. -/
theorem checkAlerts_strict_thresholds (s : AlertFlags) (g t h p : ℚ) :
    ((checkAlerts s g t h p).2.gasEvent = (decide (g > 300) && !s.gasAlertActive))
    ∧ ((checkAlerts s g t h p).1.gasAlertActive = decide (g > 300))
    ∧ ((checkAlerts s g t h p).2.tempEvent =
        (decide (t > 35.0 ∨ t < 10.0) && !s.tempAlertActive))
    ∧ ((checkAlerts s g t h p).1.tempAlertActive = decide (t > 35.0 ∨ t < 10.0))
    ∧ ((checkAlerts s g t h p).2.humEvent =
        (decide (h > 80.0 ∨ h < 30.0) && !s.humidityAlertSent))
    ∧ ((checkAlerts s g t h p).1.humidityAlertSent = decide (h > 80.0 ∨ h < 30.0))
    ∧ ((checkAlerts s g t h p).2.presEvent =
        (decide (p < 980.0) && !s.pressureAlertSent))
    ∧ ((checkAlerts s g t h p).1.pressureAlertSent = decide (p < 980.0))
    ∧ ((checkAlerts inactiveFlags 300 35.0 80.0 980.0).2 = ⟨false, false, false, false⟩)
    ∧ ((checkAlerts inactiveFlags 300 10.0 30.0 980.0).2 = ⟨false, false, false, false⟩) :=
  ⟨(checkAlerts_gas_eq s g t h p).2, (checkAlerts_gas_eq s g t h p).1,
   (checkAlerts_temp_eq s g t h p).2, (checkAlerts_temp_eq s g t h p).1,
   (checkAlerts_hum_eq s g t h p).2, (checkAlerts_hum_eq s g t h p).1,
   (checkAlerts_pres_eq s g t h p).2, (checkAlerts_pres_eq s g t h p).1,
   by norm_num [checkAlerts, inactiveFlags, GAS_ALERT_THRESHOLD, TEMP_HIGH_ALERT,
     TEMP_LOW_ALERT, HUMIDITY_HIGH_ALERT, HUMIDITY_LOW_ALERT, PRESSURE_LOW_ALERT],
   by norm_num [checkAlerts, inactiveFlags, GAS_ALERT_THRESHOLD, TEMP_HIGH_ALERT,
     TEMP_LOW_ALERT, HUMIDITY_HIGH_ALERT, HUMIDITY_LOW_ALERT, PRESSURE_LOW_ALERT]⟩

/-- Iterate `checkAlerts` over a sequence of gas readings with the other
metrics held in-band (20 °C, 50 %RH, 1000 hPa), collecting each cycle's
resulting flags and emitted alerts — one `checkAlerts()` call per
sampling cycle, threading the flag state. -/
def gasAlertTrace (s : AlertFlags) (vals : List ℚ) :
    List (AlertFlags × AlertEvents) :=
  match vals with
  | [] => []
  | v :: rest =>
    let r := checkAlerts s v 20 50 1000
    r :: gasAlertTrace r.1 rest

/-- C3: starting from all-Inactive flags and feeding `checkAlerts` the
gas_ppm sequence [100, 400, 400, 100] (other metrics in-band), exactly one
alert is emitted in total: the second sample fires the single gas
alert-start and sets the flag, the third emits nothing and stays Active,
the fourth returns to Inactive with no emitted event. -/
theorem checkAlerts_gas_sequence_single_event :
    gasAlertTrace inactiveFlags [100, 400, 400, 100] =
      [(⟨false, false, false, false⟩, ⟨false, false, false, false⟩),
       (⟨true, false, false, false⟩, ⟨true, false, false, false⟩),
       (⟨true, false, false, false⟩, ⟨false, false, false, false⟩),
       (⟨false, false, false, false⟩, ⟨false, false, false, false⟩)] := by
  norm_num [gasAlertTrace, checkAlerts, inactiveFlags, GAS_ALERT_THRESHOLD,
    TEMP_HIGH_ALERT, TEMP_LOW_ALERT, HUMIDITY_HIGH_ALERT, HUMIDITY_LOW_ALERT,
    PRESSURE_LOW_ALERT]

/-- The shared sensor snapshot written by `readSensors` (globals
`temperature`, `humidity`, `pressure`). -/
structure SensorReading where
  temperature : ℚ
  humidity : ℚ
  pressure : ℚ
deriving DecidableEq

/-- The validation core of `void readSensors()` (identical in both
firmware revisions): with fresh BME280 readings `newTemp`, `newHum`,
`newPres` (`none` models a NaN reading, since `!isnan(x)` is the first
conjunct of each guard),
`if (!isnan(newTemp) && newTemp > -40 && newTemp < 85) temperature = newTemp;`
`if (!isnan(newHum) && newHum >= 0 && newHum <= 100) humidity = newHum;`
`if (!isnan(newPres) && newPres > 800 && newPres < 1200) pressure = newPres;`
— each field keeps its previous value when its own guard fails. -/
def readSensors (s : SensorReading) (newTemp newHum newPres : Option ℚ) :
    SensorReading :=
  let s1 := match newTemp with
    | none => s
    | some v => if v > -40 ∧ v < 85 then { s with temperature := v } else s
  let s2 := match newHum with
    | none => s1
    | some v => if v ≥ 0 ∧ v ≤ 100 then { s1 with humidity := v } else s1
  let s3 := match newPres with
    | none => s2
    | some v => if v > 800 ∧ v < 1200 then { s2 with pressure := v } else s2
  s3

/-- C5: `readSensors` updates the three fields independently: each output
field equals the new value iff that value is present (non-NaN) and inside
its bound (temperature strictly in (-40, 85), humidity in [0, 100]
inclusive, pressure strictly in (800, 1200)), and otherwise retains the
prior value; in particular prior {T=20, H=50, P=1000} with new temperature
NaN and new humidity 55 yields T=20 and H=55. -/
theorem readSensors_partial_update (s : SensorReading) (nt nh np : Option ℚ) :
    ((readSensors s nt nh np).temperature =
        match nt with
        | none => s.temperature
        | some v => if v > -40 ∧ v < 85 then v else s.temperature)
    ∧ ((readSensors s nt nh np).humidity =
        match nh with
        | none => s.humidity
        | some v => if v ≥ 0 ∧ v ≤ 100 then v else s.humidity)
    ∧ ((readSensors s nt nh np).pressure =
        match np with
        | none => s.pressure
        | some v => if v > 800 ∧ v < 1200 then v else s.pressure)
    ∧ (readSensors ⟨20, 50, 1000⟩ none (some 55) none = ⟨20, 55, 1000⟩) := by
  refine ⟨?_, ?_, ?_, ?_⟩
  · rcases nt with _ | v <;> rcases nh with _ | w <;> rcases np with _ | u <;>
      simp only [readSensors] <;>
      first
      | rfl
      | (split_ifs <;> rfl)
  · rcases nt with _ | v <;> rcases nh with _ | w <;> rcases np with _ | u <;>
      simp only [readSensors] <;>
      first
      | rfl
      | (split_ifs <;> rfl)
  · rcases nt with _ | v <;> rcases nh with _ | w <;> rcases np with _ | u <;>
      simp only [readSensors] <;>
      first
      | rfl
      | (split_ifs <;> rfl)
  · norm_num [readSensors]
